import Mathlib

/-!
Verification development for a client-side feature-flag ("split") SDK.
The source artifacts embedded here are:

* `es6/matchers/eq_set.js` (`equalToSetMatcherContext` / `equalToSetMatcher`),
* `packages/splitio-cache/es6/ds/splitChanges.js` (`splitChangesDataSource`
  with its module-level `since` cursor),
* the Google-Analytics-to-Split integration (`validateIdentities`,
  `validateEventData`, and the `sendHitTask` handler installed by
  `SplitTracker`),
* the `getTreatment` evaluation pipeline, modelled from the design
  document because its implementation is not part of the sources at hand.

JavaScript values are embedded as the inductive `JsValue`; machine floats are
restricted to integers plus the special values NaN and ±Infinity, which is
all the embedded code inspects. Code that can throw is embedded in
`Except JsError`.
-/

/-- Special-value-aware JavaScript number: an integer, NaN, or ±Infinity.
The embedded code never does arithmetic on numbers, it only coerces them to
strings and tests finiteness, so an integer carrier is faithful. -/
inductive JNum where
  | fin (n : Int)
  | nan
  | inf
  | ninf
deriving DecidableEq, Repr

/-- Shallow embedding of the JavaScript values the embedded code consumes. -/
inductive JsValue where
  | null
  | undef
  | bool (b : Bool)
  | num (v : JNum)
  | str (s : String)
  | arr (xs : List JsValue)
  | obj (fields : List (String × JsValue))
deriving Repr

/-- Exceptions the embedded code can raise. -/
inductive JsError where
  | typeError
  | referenceError
deriving DecidableEq, Repr

/-- JavaScript string coercion of a number (`String(n)` / `n + ''`). -/
def jnumToString : JNum → String
  | JNum.fin n => toString n
  | JNum.nan => "NaN"
  | JNum.inf => "Infinity"
  | JNum.ninf => "-Infinity"

mutual

/-- JavaScript string coercion `String(v)` (equivalently `v + ''` for the
values of `JsValue`): arrays join their coerced elements with commas, where
`null` and `undefined` elements coerce to the empty string; plain objects
coerce to `"[object Object]"`. -/
def jsToString : JsValue → String
  | JsValue.null => "null"
  | JsValue.undef => "undefined"
  | JsValue.bool b => if b then "true" else "false"
  | JsValue.num v => jnumToString v
  | JsValue.str s => s
  | JsValue.arr xs => String.intercalate "," (jsElemStrings xs)
  | JsValue.obj _ => "[object Object]"

/-- Element-wise coercion used by `Array.prototype.toString` (via `join`):
`null` and `undefined` become the empty string inside an array. -/
def jsElemStrings : List JsValue → List String
  | [] => []
  | JsValue.null :: xs => "" :: jsElemStrings xs
  | JsValue.undef :: xs => "" :: jsElemStrings xs
  | x :: xs => jsToString x :: jsElemStrings xs

end

/-- JavaScript truthiness of an embedded value. -/
def truthy : JsValue → Bool
  | JsValue.null => false
  | JsValue.undef => false
  | JsValue.bool b => b
  | JsValue.num (JNum.fin n) => decide (n ≠ 0)
  | JsValue.num JNum.nan => false
  | JsValue.num _ => true
  | JsValue.str s => decide (s ≠ "")
  | JsValue.arr _ => true
  | JsValue.obj _ => true

/-- Whether the value is a JavaScript array (`Array.isArray`). -/
def isArr : JsValue → Bool
  | JsValue.arr _ => true
  | _ => false

/-- First binding of a key in an object's field list (objects cannot carry
duplicate keys, so first-match lookup is exact). -/
def lookupField : List (String × JsValue) → String → JsValue
  | [], _ => JsValue.undef
  | (k, v) :: rest, key => if k = key then v else lookupField rest key

/-- Property access `v[k]` for the guarded uses in the embedded code: objects
look the key up, every other value yields `undefined`. The embedded code only
dereferences values it has already checked to be truthy, so the throwing
cases of JavaScript property access (`null`/`undefined` receivers) are
unreachable at every call site of this function. -/
def getProp : JsValue → String → JsValue
  | JsValue.obj fields, k => lookupField fields k
  | _, _ => JsValue.undef

/-- Configuration object handed to `equalToSetMatcherContext`: the whitelist
is precomputed as a list of strings. -/
structure WhitelistObject where
  whitelist : List String
deriving DecidableEq, Repr

/-- Keep-first-occurrence deduplication with an accumulator of already seen
elements; `uniqAux seen l` drops the elements of `l` already in `seen`. -/
def uniqAux : List String → List String → List String
  | _, [] => []
  | seen, x :: xs =>
    if x ∈ seen then uniqAux seen xs else x :: uniqAux (x :: seen) xs

/-- lodash `_uniq` on a list of strings: keeps the first occurrence of each
element, preserving encounter order. -/
def lodashUniq (l : List String) : List String := uniqAux [] l

/-- Embedding of `equalToSetMatcher` (`es6/matchers/eq_set.js`): the matcher
computes `_uniq(value.map(e => e + ''))` and compares the result against
`vo.whitelist` with lodash `_isEqual`, which on two arrays of strings is
index-by-index (order-sensitive) list equality. Calling `.map` on a
non-array value (`null`, `undefined`, a number, a string, a plain object)
throws a `TypeError` in JavaScript, embedded as `Except.error`. The `log`
trace line is side-effect-only and is not modelled. -/
def equalToSetMatcher (vo : WhitelistObject) (value : JsValue) : Except JsError Bool :=
  match value with
  | JsValue.arr xs =>
    Except.ok (decide (lodashUniq (xs.map (fun e => jsToString e)) = vo.whitelist))
  | _ => Except.error JsError.typeError

example : equalToSetMatcher ⟨["a", "b"]⟩ (JsValue.arr [JsValue.str "b", JsValue.str "a", JsValue.str "a"]) = Except.ok false := rfl

example : equalToSetMatcher ⟨["a", "b"]⟩ (JsValue.arr [JsValue.str "a", JsValue.str "b", JsValue.str "a"]) = Except.ok true := rfl

example : equalToSetMatcher ⟨["a", "b"]⟩ JsValue.null = Except.error JsError.typeError := rfl

/-- Body of a successful `splitChanges` response after `resp.json()`:
`{till, splits}`. The payload type `P` is abstract; the data source only
forwards it to the mutator factory. -/
structure SplitChangesResponse (P : Type) where
  till : Int
  splits : P

/-- Observable outcome of one call to `splitChangesDataSource`:
`requestedSince` is the cursor value placed in the outgoing
`splitChangesRequest({since})`, `newSince` is the module-level `since`
variable after the call settles, and `result` is the settled promise —
`Except.ok` carries the value of `splitMutatorFactory(splits)`, while
`Except.error` is a rejection. -/
structure DSOutcome (M : Type) where
  requestedSince : Int
  newSince : Int
  result : Except JsError M

/-- Embedding of `splitChangesDataSource`
(`packages/splitio-cache/es6/ds/splitChanges.js`). The network fetch and the
`resp.json()` parse are an external collaborator, so one call is a function
of the current module-level `since` and of how that collaborator settles
(`resp`): a rejection at either stage skips the `.then(json => ...)`
callback, leaving `since` untouched and propagating the rejection; a
fulfilled `{till, splits}` runs `since = till` and resolves with
`splitMutatorFactory(splits)` (the factory itself lives in another module
and is passed in as `splitMutatorFactory : P → M`). The `console.log` line
is side-effect-only and is not modelled. -/
def splitChangesDataSource {P M : Type} (splitMutatorFactory : P → M)
    (since : Int) (resp : Except JsError (SplitChangesResponse P)) : DSOutcome M :=
  match resp with
  | Except.error e => ⟨since, since, Except.error e⟩
  | Except.ok json => ⟨since, json.till, Except.ok (splitMutatorFactory json.splits)⟩

/-- Embedding of the module-level declaration `let since = -1;`: the value
the cursor holds when the module is first loaded. All importers of the
module share this single binding through the exported function. -/
def initialSince : Int := -1

/-- Cursor value after running a sequence of calls to
`splitChangesDataSource`, threading the module-level `since` from each call
into the next; the list holds how the fetch collaborator settled for each
call in order. -/
def runSince {P M : Type} (splitMutatorFactory : P → M) (s : Int) :
    List (Except JsError (SplitChangesResponse P)) → Int
  | [] => s
  | r :: rs => runSince splitMutatorFactory (splitChangesDataSource splitMutatorFactory s r).newSince rs

/-- A run of fetch outcomes in which every fulfilled response carries a
`till` at least as large as the cursor value current when it was fetched —
the guarantee the backend provides for `since`/`till` cursors. -/
inductive ValidRun {P : Type} : Int → List (Except JsError (SplitChangesResponse P)) → Prop where
  | nil (s : Int) : ValidRun s []
  | consOk (s : Int) (j : SplitChangesResponse P) (rs : List (Except JsError (SplitChangesResponse P)))
      (h : s ≤ j.till) (tail : ValidRun j.till rs) : ValidRun s (Except.ok j :: rs)
  | consErr (s : Int) (e : JsError) (rs : List (Except JsError (SplitChangesResponse P)))
      (tail : ValidRun s rs) : ValidRun s (Except.error e :: rs)

example : (splitChangesDataSource (fun p : List String => p) 10 (Except.ok ⟨3, []⟩)).newSince = 3 := rfl

example : (splitChangesDataSource (fun p : List String => p) 10 (Except.ok ⟨10, ["x"]⟩)).result = Except.ok ["x"] := rfl

/-- Modelled from the spec: `isString` is imported from `utils/lang`, which
is not among the sources at hand; it is the JavaScript `typeof v ===
'string'` test its name denotes. -/
def isString : JsValue → Bool
  | JsValue.str _ => true
  | _ => false

/-- Modelled from the spec: `isFinite` is imported from `utils/lang`, which
is not among the sources at hand; it is true exactly on finite numbers (a
value of number type that is neither NaN nor ±Infinity). -/
def isFiniteNum : JsValue → Bool
  | JsValue.num (JNum.fin _) => true
  | _ => false

mutual

/-- Stringification used as the deduplication key, a model of
`JSON.stringify`-style serialization: strings are quoted, arrays and objects
are serialized recursively. Only its use as an equality key matters to the
theorems below. -/
def serialize : JsValue → String
  | JsValue.null => "null"
  | JsValue.undef => "undefined"
  | JsValue.bool b => if b then "true" else "false"
  | JsValue.num v => jnumToString v
  | JsValue.str s => "\"" ++ s ++ "\""
  | JsValue.arr xs => "[" ++ String.intercalate "," (serializeElems xs) ++ "]"
  | JsValue.obj fields => "\x7b" ++ String.intercalate "," (serializeFields fields) ++ "\x7d"

/-- Serialization of array elements, in order. -/
def serializeElems : List JsValue → List String
  | [] => []
  | x :: xs => serialize x :: serializeElems xs

/-- Serialization of object fields, in order. -/
def serializeFields : List (String × JsValue) → List String
  | [] => []
  | (k, v) :: rest => ("\"" ++ k ++ "\":" ++ serialize v) :: serializeFields rest

end

/-- Keep-first deduplication of values by their serialized form, with an
accumulator of serializations already seen. -/
def unicAux : List String → List JsValue → List JsValue
  | _, [] => []
  | seen, x :: xs =>
    if serialize x ∈ seen then unicAux seen xs
    else x :: unicAux (serialize x :: seen) xs

/-- Modelled from the spec: `unicAsStrings` is imported from `utils/lang`,
which is not among the sources at hand; per its use under the comment
"Remove duplicated identities" it returns a new list keeping the first
occurrence of each element, where two elements are duplicates when their
string serializations coincide. -/
def unicAsStrings (l : List JsValue) : List JsValue := unicAux [] l

/-- Filter predicate applied to each identity by `validateIdentities`
("rum-agent identities validator"): the identity must be truthy, its `key`
must be a string or a finite number, and its `trafficType` must be a
string. -/
def identityValid (identity : JsValue) : Bool :=
  if truthy identity = false then false
  else if isString (getProp identity "key") = false ∧ isFiniteNum (getProp identity "key") = false then false
  else if isString (getProp identity "trafficType") = false then false
  else true

/-- Embedding of `validateIdentities` from the GA-to-Split integration:
a non-array input returns `undefined` (`Option.none`); an array is first
deduplicated with `unicAsStrings` and then filtered with the identity
validator. All operations build new lists; the input is never mutated. -/
def validateIdentities : JsValue → Option (List JsValue)
  | JsValue.arr identities => Option.some ((unicAsStrings identities).filter identityValid)
  | _ => Option.none

example : validateIdentities (JsValue.str "nope") = Option.none := rfl

example : validateIdentities (JsValue.arr
    [JsValue.obj [("key", JsValue.str "k"), ("trafficType", JsValue.str "user")],
     JsValue.obj [("key", JsValue.str "k"), ("trafficType", JsValue.str "user")],
     JsValue.null,
     JsValue.obj [("key", JsValue.bool true), ("trafficType", JsValue.str "user")]]) =
  Option.some [JsValue.obj [("key", JsValue.str "k"), ("trafficType", JsValue.str "user")]] := rfl

/-- One entry of the `identities` option after validation: an object with a
`key` and a `trafficType`. -/
structure Identity where
  key : JsValue
  trafficType : JsValue

/-- Event object produced by a hit mapper: `{eventTypeId, value,
properties}` plus the optional `key`, `trafficTypeName` and `timestamp` a
custom mapper may add. A field holding `JsValue.undef` stands for a property
the object does not carry. -/
structure EventData where
  eventTypeId : JsValue
  value : JsValue
  properties : JsValue
  key : JsValue
  trafficTypeName : JsValue
  timestamp : JsValue

/-- Modelled from the spec: the five validators `validateEvent`,
`validateEventValue`, `validateEventProperties`, `validateKey` and
`validateTrafficType` are imported from `utils/inputValidation`, which is
not among the sources at hand; they are kept abstract as boolean-valued
parameters (for `validateEventProperties`, whether its `properties` result
is not `false`). -/
structure Validators where
  validateEvent : JsValue → Bool
  validateEventValue : JsValue → Bool
  validateEventProps : JsValue → Bool
  validateKey : JsValue → Bool
  validateTrafficType : JsValue → Bool

/-- Embedding of `validateEventData` from the GA-to-Split integration,
parametric in the imported validators: checks `eventTypeId`, `value` and
`properties` unconditionally, and `timestamp`, `key` and `trafficTypeName`
only when the corresponding field is truthy. -/
def validateEventData (V : Validators) (data : EventData) : Bool :=
  if V.validateEvent data.eventTypeId = false then false
  else if V.validateEventValue data.value = false then false
  else if V.validateEventProps data.properties = false then false
  else if truthy data.timestamp = true ∧ isFiniteNum data.timestamp = false then false
  else if truthy data.key = true ∧ V.validateKey data.key = false then false
  else if truthy data.trafficTypeName = true ∧ V.validateTrafficType data.trafficTypeName = false then false
  else true

/-- Options captured by the `sendHitTask` closure after the `SplitTracker`
constructor merged defaults, SDK options and plugin options. The mapper
returns `Option.none` when it evaluates to a falsy value. `mapperIsDefault`
embeds the reference comparison `opts.mapper !== defaultMapper`.
`prefixStr` is `opts.prefix` after the constructor's validation. -/
structure TrackerOpts (Hit : Type) where
  filter : Hit → Bool
  mapper : Hit → Option EventData
  mapperIsDefault : Bool
  prefixStr : JsValue
  identities : List Identity

/-- Functional update of `eventTypeId` (the prefixing assignment). -/
def setEventTypeId (d : EventData) (v : JsValue) : EventData :=
  ⟨v, d.value, d.properties, d.key, d.trafficTypeName, d.timestamp⟩

/-- Functional update of `timestamp`. -/
def setTimestamp (d : EventData) (v : JsValue) : EventData :=
  ⟨d.eventTypeId, d.value, d.properties, d.key, d.trafficTypeName, v⟩

/-- Prefix step of the handler: with a truthy prefix, `eventTypeId` becomes
the template literal `` `${opts.prefix}.${eventData.eventTypeId}` ``;
otherwise nothing is appended. -/
def applyPrefix (p : JsValue) (d : EventData) : EventData :=
  if truthy p then
    setEventTypeId d (JsValue.str (jsToString p ++ "." ++ jsToString d.eventTypeId))
  else d

/-- Timestamp step of the handler: `Date.now()` is filled in when the
mapped event carries no truthy timestamp. -/
def applyTimestamp (now : Int) (d : EventData) : EventData :=
  if truthy d.timestamp then d else setTimestamp d (JsValue.num (JNum.fin now))

/-- `Object.assign({key: identity.key, trafficTypeName:
identity.trafficType}, eventData)`: the event's own fields win over the
identity's, a field the event does not carry (`undef`) falls back to the
identity. -/
def eventForIdentity (i : Identity) (d : EventData) : EventData :=
  ⟨d.eventTypeId, d.value, d.properties,
   match d.key with | JsValue.undef => i.key | v => v,
   match d.trafficTypeName with | JsValue.undef => i.trafficType | v => v,
   d.timestamp⟩

/-- Embedding of the `sendHitTask` replacement installed by the
`SplitTracker` constructor in the GA-to-Split integration. The call to the
original `sendHitTask` (forwarding the hit to Google Analytics) is an
external side effect and is not modelled; `storedEvents` is the list of
events accumulated so far by `storage.events.track`. The branch taken when
the mapped event carries a truthy `key` and `trafficTypeName` executes
`storage.events.track(event)` — but no binding named `event` is in scope
there (the `const event` of the other branch is local to the `forEach`
callback). ES modules run in strict mode, so the reference throws a
`ReferenceError` in any environment without the legacy `window.event`
global (and in a browser exposing that global it would track the unrelated
current DOM event) — either way the mapped event data is not what gets
stored; the embedding uses the strict-module reading and raises. -/
def sendHitTask {Hit : Type} (opts : TrackerOpts Hit) (V : Validators) (now : Int)
    (storedEvents : List EventData) (model : Hit) : Except JsError (List EventData) :=
  if opts.filter model = false then Except.ok storedEvents
  else
    match opts.mapper model with
    | Option.none => Except.ok storedEvents
    | Option.some eventData =>
      if opts.mapperIsDefault = false ∧ validateEventData V eventData = false then
        Except.ok storedEvents
      else
        let ed := applyTimestamp now (applyPrefix opts.prefixStr eventData)
        if truthy ed.key = true ∧ truthy ed.trafficTypeName = true then
          Except.error JsError.referenceError
        else
          Except.ok (storedEvents ++ opts.identities.map (fun i => eventForIdentity i ed))

/-- Partition of a condition's rollout: a treatment name and its percentage
share. -/
structure Partition where
  treatment : String
  size : Int
deriving DecidableEq, Repr

/-- Modelled from the spec: the matcher kinds exercised by the evaluator
(design document §4.1), as the tagged union its design notes prescribe; the
equal-to-set variant delegates to the source-embedded matcher, treating a
thrown `TypeError` as non-match per the matcher contract. -/
inductive MatcherKind where
  | wholeTraffic
  | whitelistMatch (wl : List String)
  | equalToSet (wl : List String)

/-- Condition of a split: a matcher (with its negation flag and the
attribute it reads) plus the partitions used when it matches. -/
structure SpecCondition where
  kind : MatcherKind
  negate : Bool
  attributeName : Option String
  partitions : List Partition

/-- Internal representation of a split, per the design document's data
model (§3). -/
structure SpecSplit where
  name : String
  killed : Bool
  defaultTreatment : String
  trafficAllocation : Int
  trafficAllocationSeed : Int
  seed : Int
  conditions : List SpecCondition
  changeNumber : Int

/-- Immutable evaluation context (design document §3). -/
structure EvalContext where
  key : String
  bucketingKey : Option String
  attributes : List (String × JsValue)

/-- Modelled from the spec: matcher dispatch (§4.1): whole-traffic always
matches; whitelist membership compares the string-coerced input; equal-to-set
runs the embedded source matcher and treats a raised error as non-match. -/
def matcherTest : MatcherKind → JsValue → Bool
  | MatcherKind.wholeTraffic, _ => true
  | MatcherKind.whitelistMatch wl, v => decide (jsToString v ∈ wl)
  | MatcherKind.equalToSet wl, v =>
    match equalToSetMatcher ⟨wl⟩ v with
    | Except.ok b => b
    | Except.error _ => false

/-- Attribute fed to a condition's matcher: the configured attribute looked
up in the context (absent attributes read as `undefined`), or the
identifier itself when no attribute name is configured. -/
def attributeInput (ctx : EvalContext) (c : SpecCondition) : JsValue :=
  match c.attributeName with
  | Option.some a => lookupField ctx.attributes a
  | Option.none => JsValue.str ctx.key

/-- Modelled from the spec: condition evaluation (§4.3) applies the matcher
to the relevant attribute and XORs the outcome with `negate`. -/
def conditionTest (ctx : EvalContext) (c : SpecCondition) : Bool :=
  Bool.xor (matcherTest c.kind (attributeInput ctx c)) c.negate

/-- First condition, in declared order, whose evaluation returns true. -/
def firstMatching (ctx : EvalContext) : List SpecCondition → Option SpecCondition
  | [] => Option.none
  | c :: cs => if conditionTest ctx c then Option.some c else firstMatching ctx cs

/-- Walk the partitions in declared order accumulating their sizes; select
the first partition whose cumulative bound exceeds the bucket value
(§4.4 step 4). -/
def selectPartition (b : Int) : Int → List Partition → Option String
  | _, [] => Option.none
  | acc, p :: ps =>
    if b < acc + p.size then Option.some p.treatment else selectPartition b (acc + p.size) ps

/-- Lookup of a split by name in the published snapshot's map. -/
def lookupSplit : List (String × SpecSplit) → String → Option SpecSplit
  | [], _ => Option.none
  | (n, s) :: rest, name => if n = name then Option.some s else lookupSplit rest name

/-- Modelled from the spec: the Split Evaluator state machine of §4.4 —
killed splits yield the default treatment; a bucket at or above a partial
traffic allocation yields the default treatment; otherwise the first
matching condition's partitions are consulted, falling back to the default
treatment when no condition matches and degrading to `"control"` when
partition selection resolves nothing. The bucketing hash is the injected
`bucket` collaborator (§4.2). -/
def evalSplit (bucket : Int → String → Int) (ctx : EvalContext) (s : SpecSplit) : String :=
  if s.killed then s.defaultTreatment
  else
    let bkey := ctx.bucketingKey.getD ctx.key
    if s.trafficAllocation < 100 ∧ s.trafficAllocation ≤ bucket s.trafficAllocationSeed bkey then
      s.defaultTreatment
    else
      match firstMatching ctx s.conditions with
      | Option.none => s.defaultTreatment
      | Option.some c =>
        match selectPartition (bucket s.seed bkey) 0 c.partitions with
        | Option.some t => t
        | Option.none => "control"

/-- Modelled from the spec: the public `getTreatment` call (§6), whose
implementation is not among the sources at hand. The rule cache is
`Option.none` before the first snapshot is published (uninitialized); an
unknown split name and an uninitialized cache both yield `"control"`. As a
total function it returns a string for every input — the embedded
counterpart of "never raises". -/
def getTreatment (bucket : Int → String → Int) (cache : Option (List (String × SpecSplit)))
    (key : String) (bucketingKey : Option String) (splitName : String)
    (attributes : List (String × JsValue)) : String :=
  match cache with
  | Option.none => "control"
  | Option.some splits =>
    match lookupSplit splits splitName with
    | Option.none => "control"
    | Option.some s => evalSplit bucket ⟨key, bucketingKey, attributes⟩ s

example : getTreatment (fun _ _ => 30) Option.none "k1" Option.none "demo" [] = "control" := rfl

example : getTreatment (fun _ _ => 30)
    (Option.some [("demo", ⟨"demo", false, "off", 100, 1, 7, [⟨MatcherKind.wholeTraffic, false, Option.none, [⟨"on", 50⟩, ⟨"off", 50⟩]⟩], 1⟩)])
    "k1" Option.none "demo" [] = "on" := rfl

example : getTreatment (fun _ _ => 70)
    (Option.some [("demo", ⟨"demo", false, "off", 100, 1, 7, [⟨MatcherKind.wholeTraffic, false, Option.none, [⟨"on", 50⟩, ⟨"off", 50⟩]⟩], 1⟩)])
    "k1" Option.none "demo" [] = "off" := rfl

/-- C1: at the specified scenario — whitelist `["a","b"]`, candidate
`["b","a","a"]` — the equal-to-set matcher returns `false`, not the `true`
the specification demands: after string coercion and deduplication the
candidate is `["b","a"]`, and lodash `_isEqual` compares the two arrays
index by index, so element order is decisive even though set membership
coincides. -/
theorem equalToSet_order_sensitive_at_spec_scenario :
    equalToSetMatcher ⟨["a", "b"]⟩
      (JsValue.arr [JsValue.str "b", JsValue.str "a", JsValue.str "a"]) = Except.ok false := rfl

/-- C2 counterexample: applied to a `null` attribute value the equal-to-set
matcher does not return `false` — `value.map` on `null` throws a
`TypeError`, so the call raises. -/
theorem equalToSet_raises_on_null :
    equalToSetMatcher ⟨["a", "b"]⟩ JsValue.null = Except.error JsError.typeError := rfl

/-- C2 (amended): for every whitelist configuration the equal-to-set
matcher returns a boolean without raising on every array value, but on a
missing/`null` attribute value — or any other non-array value — it throws a
`TypeError` instead of returning `false`. -/
theorem equalToSet_total_on_arrays_raises_otherwise (vo : WhitelistObject) :
    (∀ xs : List JsValue, equalToSetMatcher vo (JsValue.arr xs) =
      Except.ok (decide (lodashUniq (xs.map (fun e => jsToString e)) = vo.whitelist))) ∧
    (∀ v : JsValue, isArr v = false → equalToSetMatcher vo v = Except.error JsError.typeError) := by
  constructor
  · intro xs
    rfl
  · intro v hv
    cases v with
    | arr xs => simp [isArr] at hv
    | null => rfl
    | undef => rfl
    | bool b => rfl
    | num n => rfl
    | str s => rfl
    | obj fields => rfl

/-- C2 witness: the amended theorem applied at the whitelist `["a"]`, the
array value `["a"]` and the non-array value `null`. -/
theorem equalToSet_total_on_arrays_raises_otherwise_witness :
    equalToSetMatcher ⟨["a"]⟩ (JsValue.arr [JsValue.str "a"]) = Except.ok true ∧
    equalToSetMatcher ⟨["a"]⟩ JsValue.null = Except.error JsError.typeError := by
  constructor
  · exact (equalToSet_total_on_arrays_raises_otherwise ⟨["a"]⟩).1 [JsValue.str "a"]
  · exact (equalToSet_total_on_arrays_raises_otherwise ⟨["a"]⟩).2 JsValue.null (by decide)

/-- C4: when the fetch collaborator rejects — a network/HTTP failure or a
response body that fails to parse as JSON — `splitChangesDataSource` leaves
the module-level `since` unchanged, issues the request with the old cursor,
and its promise rejects without producing a new split map, so the next call
retries with the same `since` value. -/
theorem fetch_failure_leaves_since_unchanged {P M : Type} (m : P → M) (s : Int) (e : JsError)
    (resp2 : Except JsError (SplitChangesResponse P)) :
    splitChangesDataSource m s (Except.error e) = ⟨s, s, Except.error e⟩ ∧
    (splitChangesDataSource m (splitChangesDataSource m s (Except.error e)).newSince resp2).requestedSince = s := by
  constructor
  · rfl
  · cases resp2 <;> rfl

/-- C5 counterexample: with the cursor at `10`, a fulfilled response with
`till = 10` (equal to `since`) still produces a split map — the data source
unconditionally applies the mutator factory to the response's `splits` and
resolves with its result; there is no "no changes" branch suppressing the
publish. -/
theorem till_equal_since_still_publishes :
    (splitChangesDataSource (fun p : List String => p) 10 (Except.ok ⟨10, ["x"]⟩)).result =
      Except.ok ["x"] := rfl

/-- C5 (amended): when a successful fetch returns `till` equal to the
current `since`, the call succeeds and leaves the cursor at the same value,
but it still applies the Split Mutator to the response's `splits` and
resolves with the mutator's output — no branch suppresses the publish on
`till == since`. -/
theorem till_equal_since_keeps_cursor_but_mutates {P M : Type} (m : P → M) (s : Int) (p : P) :
    splitChangesDataSource m s (Except.ok ⟨s, p⟩) = ⟨s, s, Except.ok (m p)⟩ := rfl

/-- C6: every successful fetch applies the Split Mutator to the response's
`splits` (the promise resolves with `splitMutatorFactory(splits)`) and sets
the cursor to the response's `till`, so the next call — whatever its own
outcome — issues its request with `since` equal to that `till`. -/
theorem success_sets_since_to_till_and_applies_mutator {P M : Type} (m m2 : P → M)
    (s t : Int) (p : P) (resp2 : Except JsError (SplitChangesResponse P)) :
    splitChangesDataSource m s (Except.ok ⟨t, p⟩) = ⟨s, t, Except.ok (m p)⟩ ∧
    (splitChangesDataSource m2 (splitChangesDataSource m s (Except.ok ⟨t, p⟩)).newSince resp2).requestedSince = t := by
  constructor
  · rfl
  · cases resp2 <;> rfl

/-- C8: the cursor is the module-level binding `let since = -1`: at module
load it is `-1`, the first call issues its fetch with `since = -1`, and
because every importer calls the one exported function closing over that
binding, a successful call with response `till` makes every later call —
from any caller — issue its fetch with `since` equal to that `till`. -/
theorem since_module_level_cursor_shared {P M : Type} (m m2 : P → M)
    (resp resp2 : Except JsError (SplitChangesResponse P)) (s : Int) (j : SplitChangesResponse P) :
    initialSince = -1 ∧
    (splitChangesDataSource m initialSince resp).requestedSince = -1 ∧
    (splitChangesDataSource m2 (splitChangesDataSource m s (Except.ok j)).newSince resp2).requestedSince = j.till := by
  refine ⟨rfl, ?_, ?_⟩
  · cases resp <;> rfl
  · cases resp2 <;> rfl

/-- C3 counterexample: with the cursor at `10`, one resolving call whose
response carries `till = 3` moves the cursor down to `3` — the source
assigns `since = till` unconditionally, so nothing stops a response with a
smaller `till` from decreasing the cursor. -/
theorem sinceCursor_can_decrease :
    runSince (fun p : List String => p) 10 [Except.ok ⟨3, []⟩] = 3 ∧ (3 : Int) < 10 := by
  exact ⟨rfl, by decide⟩

/-- C3 (amended): each resolving call sets the cursor to the response's
`till`, so across a sequence of calls in which every fulfilled response
carries a `till` at least as large as the cursor current at its fetch (the
backend's cursor guarantee), the cursor is non-decreasing; an arbitrary
response with a smaller `till` can move it backwards. -/
theorem sinceCursor_monotone_of_validRun {P M : Type} (m : P → M) (s : Int)
    (rs : List (Except JsError (SplitChangesResponse P))) (h : ValidRun s rs) :
    s ≤ runSince m s rs := by
  induction h with
  | nil s => exact le_refl s
  | consOk s j rs hle tail ih =>
    have hrun : runSince m s (Except.ok j :: rs) = runSince m j.till rs := rfl
    rw [hrun]
    exact le_trans hle ih
  | consErr s e rs tail ih =>
    have hrun : runSince m s (Except.error e :: rs) = runSince m s rs := rfl
    rw [hrun]
    exact ih

/-- C3 witness: the amended theorem applied to the run starting at the
module's initial cursor with one fulfilled response (`till = 5`) followed by
one rejection. -/
theorem sinceCursor_monotone_of_validRun_witness :
    initialSince ≤ runSince (fun p : List String => p) initialSince
      [Except.ok ⟨5, ["a"]⟩, Except.error JsError.typeError] :=
  sinceCursor_monotone_of_validRun _ _ _
    (ValidRun.consOk _ _ _ (by decide) (ValidRun.consErr _ _ _ (ValidRun.nil _)))

/-- C7: the public evaluation call returns `"control"` on an uninitialized
cache and on a split name absent from the cache; being a total function of
its inputs it returns a string in every case — the embedded counterpart of
"never raises". Proved over the evaluator modelled from the design
document, whose implementation is not among the sources at hand. -/
theorem getTreatment_control_on_unknown_or_uninitialized
    (bucket : Int → String → Int) (key : String) (bucketingKey : Option String)
    (splitName : String) (attributes : List (String × JsValue)) :
    getTreatment bucket Option.none key bucketingKey splitName attributes = "control" ∧
    (∀ splits : List (String × SpecSplit), lookupSplit splits splitName = Option.none →
      getTreatment bucket (Option.some splits) key bucketingKey splitName attributes = "control") := by
  constructor
  · rfl
  · intro splits h
    simp only [getTreatment, h]

/-- C7 witness: the theorem applied with a constant bucketing hash, an
uninitialized cache, and an empty (hence unknown-name) cache. -/
theorem getTreatment_control_witness :
    getTreatment (fun _ _ => 0) Option.none "user" Option.none "unknown" [] = "control" ∧
    getTreatment (fun _ _ => 0) (Option.some []) "user" Option.none "unknown" [] = "control" := by
  constructor
  · exact (getTreatment_control_on_unknown_or_uninitialized (fun _ _ => 0) "user" Option.none "unknown" []).1
  · exact (getTreatment_control_on_unknown_or_uninitialized (fun _ _ => 0) "user" Option.none "unknown" []).2 [] rfl

/-- Keep-first deduplication only drops elements: the output is a sublist
of the input. -/
theorem unicAux_sublist : ∀ (l : List JsValue) (seen : List String),
    List.Sublist (unicAux seen l) l
  | [], _ => List.Sublist.slnil
  | x :: xs, seen => by
    unfold unicAux
    split
    · exact List.Sublist.cons x (unicAux_sublist xs seen)
    · exact List.Sublist.cons₂ x (unicAux_sublist xs (serialize x :: seen))

/-- No element surviving deduplication serializes to a string already in
the accumulator. -/
theorem mem_unicAux_not_seen : ∀ (l : List JsValue) (seen : List String) (x : JsValue),
    x ∈ unicAux seen l → serialize x ∉ seen := by
  intro l
  induction l with
  | nil =>
    intro seen x hx
    simp [unicAux] at hx
  | cons y ys ih =>
    intro seen x hx
    unfold unicAux at hx
    by_cases hy : serialize y ∈ seen
    · rw [if_pos hy] at hx
      exact ih seen x hx
    · rw [if_neg hy] at hx
      cases hx with
      | head => exact hy
      | tail _ h =>
        have hnot := ih (serialize y :: seen) x h
        intro hc
        exact hnot (List.mem_cons_of_mem _ hc)

/-- The deduplicated list has pairwise distinct serializations. -/
theorem pairwise_unicAux : ∀ (l : List JsValue) (seen : List String),
    (unicAux seen l).Pairwise (fun a b => serialize a ≠ serialize b) := by
  intro l
  induction l with
  | nil =>
    intro seen
    simp [unicAux]
  | cons y ys ih =>
    intro seen
    unfold unicAux
    by_cases hy : serialize y ∈ seen
    · rw [if_pos hy]
      exact ih seen
    · rw [if_neg hy]
      refine List.Pairwise.cons ?_ (ih (serialize y :: seen))
      intro b hb hc
      exact mem_unicAux_not_seen ys (serialize y :: seen) b hb (hc ▸ List.mem_cons_self _ _)

/-- A validated identity is truthy, carries a string-or-finite-number key
and a string traffic type. -/
theorem identityValid_spec (i : JsValue) (h : identityValid i = true) :
    truthy i = true ∧
    (isString (getProp i "key") = true ∨ isFiniteNum (getProp i "key") = true) ∧
    isString (getProp i "trafficType") = true := by
  cases ht : truthy i <;>
    cases hk1 : isString (getProp i "key") <;>
    cases hk2 : isFiniteNum (getProp i "key") <;>
    cases htt : isString (getProp i "trafficType") <;>
    simp_all [identityValid]

/-- C9: `validateIdentities` returns `undefined` on every non-array input;
on an array it returns a new list (a sublist of the input, so the input is
not modified) whose elements have pairwise distinct serializations — the
deduplication invariant of `unicAsStrings` — and every element of which is
truthy, has a `key` that is a string or a finite number, and has a string
`trafficType`. -/
theorem validateIdentities_spec (v : JsValue) :
    (isArr v = false → validateIdentities v = Option.none) ∧
    (∀ ids : List JsValue, v = JsValue.arr ids → ∃ out : List JsValue,
      validateIdentities v = Option.some out ∧
      List.Sublist out ids ∧
      out.Pairwise (fun a b => serialize a ≠ serialize b) ∧
      ∀ i ∈ out, truthy i = true ∧
        (isString (getProp i "key") = true ∨ isFiniteNum (getProp i "key") = true) ∧
        isString (getProp i "trafficType") = true) := by
  constructor
  · intro hv
    cases v with
    | arr xs => simp [isArr] at hv
    | null => rfl
    | undef => rfl
    | bool b => rfl
    | num n => rfl
    | str s => rfl
    | obj fields => rfl
  · intro ids hv
    subst hv
    refine ⟨(unicAsStrings ids).filter identityValid, rfl, ?_, ?_, ?_⟩
    · exact (List.filter_sublist _).trans (unicAux_sublist ids [])
    · exact List.Pairwise.sublist (List.filter_sublist _) (pairwise_unicAux ids [])
    · intro i hi
      exact identityValid_spec i (List.of_mem_filter hi)

/-- C9 witness: the theorem applied at the non-array input `"x"` and at a
concrete two-element array containing a duplicate pair of valid identities
and one invalid entry. -/
theorem validateIdentities_spec_witness :
    validateIdentities (JsValue.str "x") = Option.none ∧
    (∃ out : List JsValue,
      validateIdentities (JsValue.arr [JsValue.null]) = Option.some out ∧
      List.Sublist out [JsValue.null] ∧
      out.Pairwise (fun a b => serialize a ≠ serialize b) ∧
      ∀ i ∈ out, truthy i = true ∧
        (isString (getProp i "key") = true ∨ isFiniteNum (getProp i "key") = true) ∧
        isString (getProp i "trafficType") = true) := by
  constructor
  · exact (validateIdentities_spec (JsValue.str "x")).1 rfl
  · exact (validateIdentities_spec (JsValue.arr [JsValue.null])).2 [JsValue.null] rfl

/-- The prefix and timestamp steps of the handler never touch the mapped
event's `key`. -/
theorem handler_steps_preserve_key (p : JsValue) (now : Int) (d : EventData) :
    (applyTimestamp now (applyPrefix p d)).key = d.key := by
  unfold applyPrefix applyTimestamp setEventTypeId setTimestamp
  split <;> split <;> rfl

/-- The prefix and timestamp steps of the handler never touch the mapped
event's `trafficTypeName`. -/
theorem handler_steps_preserve_trafficTypeName (p : JsValue) (now : Int) (d : EventData) :
    (applyTimestamp now (applyPrefix p d)).trafficTypeName = d.trafficTypeName := by
  unfold applyPrefix applyTimestamp setEventTypeId setTimestamp
  split <;> split <;> rfl

/-- C10: for every hit that passes the configured filter and whose mapped
event data carries a truthy `key` and `trafficTypeName` (and survives the
custom-mapper validation when one applies), the installed `sendHitTask`
handler does NOT store that event: the branch it takes executes
`storage.events.track(event)` where no binding named `event` is in scope,
so under strict ES-module semantics the handler raises a `ReferenceError`
and nothing reaches the event storage — the claim's "stores exactly that
event and does not raise" fails on the code. -/
theorem sendHitTask_raises_on_keyed_mapped_event {Hit : Type} (opts : TrackerOpts Hit)
    (V : Validators) (now : Int) (storedEvents : List EventData) (model : Hit) (ed : EventData)
    (hfilter : opts.filter model = true)
    (hmap : opts.mapper model = Option.some ed)
    (hvalid : opts.mapperIsDefault = true ∨ validateEventData V ed = true)
    (hkey : truthy ed.key = true)
    (htt : truthy ed.trafficTypeName = true) :
    sendHitTask opts V now storedEvents model = Except.error JsError.referenceError := by
  have hcond : ¬(opts.mapperIsDefault = false ∧ validateEventData V ed = false) := by
    rcases hvalid with h | h <;> simp [h]
  have h1 : truthy (applyTimestamp now (applyPrefix opts.prefixStr ed)).key = true := by
    rw [handler_steps_preserve_key]
    exact hkey
  have h2 : truthy (applyTimestamp now (applyPrefix opts.prefixStr ed)).trafficTypeName = true := by
    rw [handler_steps_preserve_trafficTypeName]
    exact htt
  unfold sendHitTask
  rw [hfilter, hmap]
  simp [hcond, h1, h2]

/-- C10 witness: the theorem applied to a concrete tracker configuration —
an accept-all filter, a default-flagged mapper whose output carries
`eventTypeId "pageview"`, `key "user1"` and `trafficTypeName "user"` — at
which the handler evaluates to the raised `ReferenceError`. -/
theorem sendHitTask_raises_on_keyed_mapped_event_witness :
    sendHitTask
      (⟨fun _ => true,
        fun _ => Option.some ⟨JsValue.str "pageview", JsValue.undef, JsValue.obj [],
          JsValue.str "user1", JsValue.str "user", JsValue.undef⟩,
        true, JsValue.str "ga", []⟩ : TrackerOpts Unit)
      ⟨fun _ => true, fun _ => true, fun _ => true, fun _ => true, fun _ => true⟩
      1700000000000 [] () = Except.error JsError.referenceError :=
  sendHitTask_raises_on_keyed_mapped_event _ _ _ _ _
    ⟨JsValue.str "pageview", JsValue.undef, JsValue.obj [],
      JsValue.str "user1", JsValue.str "user", JsValue.undef⟩
    rfl rfl (Or.inl rfl) rfl rfl
